import Mathlib

/-!
Shallow embedding of `api/services/app_generate_service.py` (class `AppGenerateService`):
the admission-control layer that applies a per-tenant daily rate limit, a per-application
concurrency ceiling, mode dispatch to generation strategies, and workflow resolution.

External effects are made explicit: `SysState` carries the shared counter store (tenant
counters and the per-application active-ticket set) together with an event log recording
every limiter call and every strategy invocation, so that ordering and frame properties of
the admission layer can be stated.  `Env` packages the external collaborators (billing plan
lookup, workflow provider, and the outcome of each generation strategy when invoked).

The bodies of `libs.helper.RateLimiter` and `core.app.features.rate_limiting.RateLimit`
are not part of the source tree; those operations are modelled from the spec (their doc
comments say so).  Everything else is translated from the source file.
-/

namespace AppGen

/-- A workflow definition (`models.workflow.Workflow`); only identity matters here. -/
structure Workflow where
  id : String
deriving DecidableEq, Repr

/-- The `core.app.entities.app_invoke_entities.InvokeFrom` enumeration. -/
inductive InvokeFrom
  | service_api
  | web_app
  | explore
  | debugger
deriving DecidableEq, Repr

/-- The fields of `models.model.App` read by `AppGenerateService`.  `mode` is the raw
string compared against `AppMode` member values; `max_active_requests` may be NULL
(`None`), which line 145 of the source collapses to 0 via `or 0`. -/
structure App where
  id : String
  tenant_id : String
  mode : String
  is_agent : Bool
  max_active_requests : Option Nat
deriving DecidableEq, Repr

/-- The `dify_config` fields read by `AppGenerateService`. -/
structure Config where
  BILLING_ENABLED : Bool
  APP_DAILY_RATE_LIMIT : Nat
  APP_MAX_ACTIVE_REQUESTS : Nat
deriving DecidableEq, Repr

/-- One generation-strategy invocation, tagged with the generator class and method and the
data resolved by `AppGenerateService` before the call (workflow definition, node id,
message id). -/
inductive StrategyCall
  | completion_generate
  | agent_chat_generate
  | chat_generate
  | advanced_chat_generate (workflow : Workflow)
  | workflow_generate (workflow : Workflow)
  | advanced_chat_single_iteration_generate (workflow : Workflow) (node_id : String)
  | workflow_single_iteration_generate (workflow : Workflow) (node_id : String)
  | advanced_chat_single_loop_generate (workflow : Workflow) (node_id : String)
  | workflow_single_loop_generate (workflow : Workflow) (node_id : String)
  | completion_generate_more_like_this (message_id : String)
deriving DecidableEq, Repr

/-- A strategy's output: a synchronous mapping result or a lazy event stream
(`GenerationOutput` in the spec; `Mapping | Generator` in the code). -/
inductive GenOut
  | mapping
  | stream
deriving DecidableEq, Repr

/-- Python exception values crossing the embedded code, by class:
`openai.RateLimitError`, `services.errors.llm.InvokeRateLimitError`, `ValueError`,
the quota error raised by `RateLimit.enter`, and any other exception object. -/
inductive PyExc
  | rateLimitError (msg : String)
  | invokeRateLimitError (msg : String)
  | valueError (msg : String)
  | appInvokeQuotaExceededError (app_id : String) (ceiling : Nat)
  | otherError (tag : String)
deriving DecidableEq, Repr

/-- Observable events of the admission layer, in call order. -/
inductive Event
  | check_rate_limited (tenant_id : String) (result : Bool)
  | increment_rate_limit (tenant_id : String)
  | enter_called (app_id : String) (request_id : String)
  | exit_called (app_id : String) (request_id : String)
  | strategy_invoked (call : StrategyCall)
deriving DecidableEq, Repr

/-- The shared mutable state: per-tenant daily counters, the per-application active-ticket
set (pairs of application id and request token), and the event log. -/
structure SysState where
  counters : List (String × Nat)
  active : List (String × String)
  log : List Event
deriving DecidableEq, Repr

/-- Read a tenant's counter; an absent counter is read as zero. -/
def lookupCounter (counters : List (String × Nat)) (tenant_id : String) : Nat :=
  match counters.find? (fun p => p.1 == tenant_id) with
  | some p => p.2
  | none => 0

/-- Set a tenant's counter to its current value plus one, leaving other tenants alone. -/
def bumpCounter (counters : List (String × Nat)) (tenant_id : String) :
    List (String × Nat) :=
  (tenant_id, lookupCounter counters tenant_id + 1) ::
    counters.eraseP (fun p => p.1 == tenant_id)

/-- Number of active tickets held by one application. -/
def countActive (active : List (String × String)) (app_id : String) : Nat :=
  (active.filter (fun p => p.1 == app_id)).length

/-- Modelled from the spec: `RateLimiter.is_rate_limited` (`libs/helper.py`, not under
`src/`).  Reads the tenant's window counter (absence treated as zero) and returns true iff
the count has reached the configured ceiling; never raises.  The call is recorded in the
log. -/
def RateLimiter.is_rate_limited (limit : Nat) (tenant_id : String) (st : SysState) :
    Bool × SysState :=
  let limited : Bool := decide (limit ≤ lookupCounter st.counters tenant_id)
  (limited, { st with log := st.log ++ [Event.check_rate_limited tenant_id limited] })

/-- Modelled from the spec: `RateLimiter.increment_rate_limit` (`libs/helper.py`, not under
`src/`).  Atomically increases the tenant's counter; the window expiry it also sets is not
modelled because no claim mentions expiry. -/
def RateLimiter.increment_rate_limit (tenant_id : String) (st : SysState) : SysState :=
  { st with
      counters := bumpCounter st.counters tenant_id,
      log := st.log ++ [Event.increment_rate_limit tenant_id] }

/-- Modelled from the spec: `RateLimit.enter` (`core/app/features/rate_limiting`, not under
`src/`).  Checks the application's active-set size against the effective ceiling (ceiling 0
admits unconditionally), on admission adds the token to the active set and returns it,
otherwise fails with the `ConcurrencyLimitExceeded` kind carrying the application id and
the ceiling. -/
def RateLimit.enter (app_id : String) (max_active_requests : Nat) (request_id : String)
    (st : SysState) : Except PyExc String × SysState :=
  let st1 := { st with log := st.log ++ [Event.enter_called app_id request_id] }
  if max_active_requests = 0 ∨ countActive st.active app_id < max_active_requests then
    (Except.ok request_id, { st1 with active := (app_id, request_id) :: st1.active })
  else
    (Except.error (PyExc.appInvokeQuotaExceededError app_id max_active_requests), st1)

/-- Modelled from the spec: `RateLimit.exit` (`core/app/features/rate_limiting`, not under
`src/`).  Removes the token from the application's active set if present; it is a total
function (never raises), and calling it again, or for a token never admitted, leaves the
active set unchanged. -/
def RateLimit.exit (app_id : String) (request_id : String) (st : SysState) : SysState :=
  { st with
      active := st.active.filter (fun p => p != (app_id, request_id)),
      log := st.log ++ [Event.exit_called app_id request_id] }

/-- The caller-visible response of `generate`: a direct mapping result, or a wrapped
stream that holds the admission token for deferred release while it is consumed. -/
inductive Response
  | direct
  | wrappedStream (request_id : String)
deriving DecidableEq, Repr

/-- Modelled from the spec: `RateLimit.generate` (StreamingDispatchWrapper, not under
`src/`).  A synchronous mapping result is returned directly; a lazy event sequence is
wrapped so that the ticket is released when the stream ends. -/
def RateLimit.generate (out : GenOut) (request_id : String) : Response :=
  match out with
  | GenOut.mapping => Response.direct
  | GenOut.stream => Response.wrappedStream request_id

/-- The external collaborators: the tenant's billing plan
(`BillingService.get_info(tenant_id)["subscription"]["plan"]`), the draft and published
workflow definitions held by `WorkflowService` for the app, and the synchronous outcome of
each generation strategy when invoked (a result, or a raised exception). -/
structure Env where
  plan : String
  draft_workflow : Option Workflow
  published_workflow : Option Workflow
  strategy : StrategyCall → Except PyExc GenOut

/-- Invoke a generation strategy: record the call and produce its outcome. -/
def invokeStrategy (env : Env) (call : StrategyCall) (st : SysState) :
    Except PyExc GenOut × SysState :=
  (env.strategy call, { st with log := st.log ++ [Event.strategy_invoked call] })

/-- Source `AppGenerateService._get_max_active_requests` (source lines 131-150): the app limit
(NULL collapsed to 0) and the config limit, the non-positive values filtered out, the
minimum of what remains, or 0 when nothing remains. -/
def get_max_active_requests (cfg : Config) (app : App) : Nat :=
  let app_limit := app.max_active_requests.getD 0
  let config_limit := cfg.APP_MAX_ACTIVE_REQUESTS
  let limits := [app_limit, config_limit].filter (fun limit => decide (0 < limit))
  match limits with
  | [] => 0
  | l :: ls => ls.foldl Nat.min l

/-- Source `AppGenerateService._get_workflow` (source lines 212-234): draft workflow for a
debugger invocation (raising `ValueError("Workflow not initialized")` when absent),
published workflow otherwise (raising `ValueError("Workflow not published")` when
absent). -/
def get_workflow (env : Env) (invoke_from : InvokeFrom) : Except PyExc Workflow :=
  if invoke_from = InvokeFrom.debugger then
    match env.draft_workflow with
    | some workflow => Except.ok workflow
    | none => Except.error (PyExc.valueError "Workflow not initialized")
  else
    match env.published_workflow with
    | some workflow => Except.ok workflow
    | none => Except.error (PyExc.valueError "Workflow not published")

/-- A strategy invocation followed by `convert_to_event_stream` and `rate_limit.generate`
(the common shape of every branch of the mode dispatch in `generate`). -/
def dispatchStrategy (env : Env) (call : StrategyCall) (request_id : String)
    (st : SysState) : Except PyExc Response × SysState :=
  match invokeStrategy env call st with
  | (Except.error e, st1) => (Except.error e, st1)
  | (Except.ok out, st1) => (Except.ok (RateLimit.generate out request_id), st1)

/-- The `try` block of `AppGenerateService.generate` (source lines 59-121): admission via
`rate_limit.enter`, then mode dispatch, resolving the workflow first for the
`advanced-chat` and `workflow` modes, and `ValueError` for any other mode. -/
def generateBody (env : Env) (app : App) (invoke_from : InvokeFrom)
    (max_active_request : Nat) (request_key : String) (st : SysState) :
    Except PyExc Response × SysState :=
  match RateLimit.enter app.id max_active_request request_key st with
  | (Except.error e, st1) => (Except.error e, st1)
  | (Except.ok request_id, st1) =>
    if app.mode == "completion" then
      dispatchStrategy env StrategyCall.completion_generate request_id st1
    else if app.mode == "agent-chat" || app.is_agent then
      dispatchStrategy env StrategyCall.agent_chat_generate request_id st1
    else if app.mode == "chat" then
      dispatchStrategy env StrategyCall.chat_generate request_id st1
    else if app.mode == "advanced-chat" then
      match get_workflow env invoke_from with
      | Except.error e => (Except.error e, st1)
      | Except.ok workflow =>
        dispatchStrategy env (StrategyCall.advanced_chat_generate workflow) request_id st1
    else if app.mode == "workflow" then
      match get_workflow env invoke_from with
      | Except.error e => (Except.error e, st1)
      | Except.ok workflow =>
        dispatchStrategy env (StrategyCall.workflow_generate workflow) request_id st1
    else
      (Except.error (PyExc.valueError ("Invalid app mode " ++ app.mode)), st1)

/-- The system-level rate limiter block of `generate` (source lines 43-53): when billing
is enabled and the tenant's plan is `sandbox`, check the tenant's daily counter, raise
`InvokeRateLimitError` if limited, otherwise increment the counter. -/
def systemRateLimiterCheck (cfg : Config) (env : Env) (app : App) (st : SysState) :
    Except PyExc Unit × SysState :=
  if cfg.BILLING_ENABLED then
    if env.plan == "sandbox" then
      let r := RateLimiter.is_rate_limited cfg.APP_DAILY_RATE_LIMIT app.tenant_id st
      if r.1 then
        (Except.error (PyExc.invokeRateLimitError
          ("Rate limit exceeded, please upgrade your plan or your RPD was "
            ++ toString cfg.APP_DAILY_RATE_LIMIT ++ " requests/day")), r.2)
      else
        (Except.ok (), RateLimiter.increment_rate_limit app.tenant_id r.2)
    else
      (Except.ok (), st)
  else
    (Except.ok (), st)

/-- The `except`/`finally` clauses of `generate` (source lines 122-129), applied to the
outcome of the `try` block: `RateLimitError` is translated into
`InvokeRateLimitError(str(e))` (and, being raised from inside the first `except` clause,
skips the `except Exception` clause); any other exception triggers `rate_limit.exit` and
is re-raised unchanged; the `finally` clause calls `rate_limit.exit` when not
streaming. -/
def handleExceptions (app_id request_key : String) (streaming : Bool)
    (body : Except PyExc Response × SysState) : Except PyExc Response × SysState :=
  let handled : Except PyExc Response × SysState :=
    match body with
    | (Except.error (PyExc.rateLimitError m), st2) =>
      (Except.error (PyExc.invokeRateLimitError m), st2)
    | (Except.error e, st2) => (Except.error e, RateLimit.exit app_id request_key st2)
    | (Except.ok r, st2) => (Except.ok r, st2)
  if streaming then handled
  else (handled.1, RateLimit.exit app_id request_key handled.2)

/-- Source `AppGenerateService.generate` (source lines 25-129): the system-level rate limiter
block, then the `try` block (`generateBody`, with `request_key` standing for the value of
`RateLimit.gen_request_key()`), then the `except`/`finally` clauses. -/
def generate (cfg : Config) (env : Env) (app : App) (invoke_from : InvokeFrom)
    (streaming : Bool) (request_key : String) (st : SysState) :
    Except PyExc Response × SysState :=
  match systemRateLimiterCheck cfg env app st with
  | (Except.error e, st1) => (Except.error e, st1)
  | (Except.ok _, st1) =>
    handleExceptions app.id request_key streaming
      (generateBody env app invoke_from (get_max_active_requests cfg app) request_key st1)

/-- Source `AppGenerateService.generate_single_iteration` (source lines 152-169): resolves the
draft workflow (debugger source) and calls the mode's `single_iteration_generate`
directly; `ValueError` for any other mode.  No limiter is consulted. -/
def generate_single_iteration (env : Env) (app : App) (node_id : String)
    (streaming : Bool) (st : SysState) : Except PyExc GenOut × SysState :=
  if app.mode == "advanced-chat" then
    match get_workflow env InvokeFrom.debugger with
    | Except.error e => (Except.error e, st)
    | Except.ok workflow =>
      invokeStrategy env
        (StrategyCall.advanced_chat_single_iteration_generate workflow node_id) st
  else if app.mode == "workflow" then
    match get_workflow env InvokeFrom.debugger with
    | Except.error e => (Except.error e, st)
    | Except.ok workflow =>
      invokeStrategy env
        (StrategyCall.workflow_single_iteration_generate workflow node_id) st
  else
    (Except.error (PyExc.valueError ("Invalid app mode " ++ app.mode)), st)

/-- Source `AppGenerateService.generate_single_loop` (source lines 171-188): same shape as
`generate_single_iteration` with the `single_loop_generate` strategies. -/
def generate_single_loop (env : Env) (app : App) (node_id : String)
    (streaming : Bool) (st : SysState) : Except PyExc GenOut × SysState :=
  if app.mode == "advanced-chat" then
    match get_workflow env InvokeFrom.debugger with
    | Except.error e => (Except.error e, st)
    | Except.ok workflow =>
      invokeStrategy env
        (StrategyCall.advanced_chat_single_loop_generate workflow node_id) st
  else if app.mode == "workflow" then
    match get_workflow env InvokeFrom.debugger with
    | Except.error e => (Except.error e, st)
    | Except.ok workflow =>
      invokeStrategy env
        (StrategyCall.workflow_single_loop_generate workflow node_id) st
  else
    (Except.error (PyExc.valueError ("Invalid app mode " ++ app.mode)), st)

/-- Source `AppGenerateService.generate_more_like_this` (source lines 190-210): directly invokes
`CompletionAppGenerator().generate_more_like_this`; no limiter is consulted. -/
def generate_more_like_this (env : Env) (app : App) (message_id : String)
    (invoke_from : InvokeFrom) (streaming : Bool) (st : SysState) :
    Except PyExc GenOut × SysState :=
  invokeStrategy env (StrategyCall.completion_generate_more_like_this message_id) st

/-- The tenant is subject to the system rate limiter and already at its quota: billing
enabled, plan `sandbox`, counter at or above the daily ceiling. -/
def SandboxLimited (cfg : Config) (env : Env) (app : App) (st : SysState) : Prop :=
  cfg.BILLING_ENABLED = true ∧ env.plan = "sandbox" ∧
    cfg.APP_DAILY_RATE_LIMIT ≤ lookupCounter st.counters app.tenant_id

/-- The concurrency governor admits a fresh request for the app in state `st`. -/
def Admits (cfg : Config) (app : App) (st : SysState) : Prop :=
  get_max_active_requests cfg app = 0 ∨
    countActive st.active app.id < get_max_active_requests cfg app

/-- The strategy call the mode dispatch of `generate` selects, or the error it raises
instead (unsupported mode, or a missing workflow for the workflow modes).  Mirrors the
`if`-chain of source lines 61-121; used to state claims uniformly over modes. -/
def modeOutcome (env : Env) (app : App) (invoke_from : InvokeFrom) :
    Except PyExc StrategyCall :=
  if app.mode == "completion" then
    Except.ok StrategyCall.completion_generate
  else if app.mode == "agent-chat" || app.is_agent then
    Except.ok StrategyCall.agent_chat_generate
  else if app.mode == "chat" then
    Except.ok StrategyCall.chat_generate
  else if app.mode == "advanced-chat" then
    (get_workflow env invoke_from).map StrategyCall.advanced_chat_generate
  else if app.mode == "workflow" then
    (get_workflow env invoke_from).map StrategyCall.workflow_generate
  else
    Except.error (PyExc.valueError ("Invalid app mode " ++ app.mode))

/-- The workflow definition a strategy invocation was handed, when it carries one. -/
def strategyWorkflow : StrategyCall → Option Workflow
  | StrategyCall.advanced_chat_generate w => some w
  | StrategyCall.workflow_generate w => some w
  | StrategyCall.advanced_chat_single_iteration_generate w _ => some w
  | StrategyCall.workflow_single_iteration_generate w _ => some w
  | StrategyCall.advanced_chat_single_loop_generate w _ => some w
  | StrategyCall.workflow_single_loop_generate w _ => some w
  | _ => none

/-- The effective per-application ceiling as the spec words it: the minimum of the
non-zero values among the app's own limit and the global limit; 0 (unlimited) when both
are zero. -/
def effectiveCeilingSpec (app_limit config_limit : Nat) : Nat :=
  if app_limit = 0 then config_limit
  else if config_limit = 0 then app_limit
  else min app_limit config_limit

/-! Helper lemmas about the individual operations, composed below into the per-claim
theorems. -/

theorem enter_admit (a : String) (m : Nat) (r : String) (st : SysState)
    (h : m = 0 ∨ countActive st.active a < m) :
    RateLimit.enter a m r st =
      (Except.ok r, { st with active := (a, r) :: st.active,
                              log := st.log ++ [Event.enter_called a r] }) := by
  unfold RateLimit.enter
  rw [if_pos h]

theorem enter_reject (a : String) (m : Nat) (r : String) (st : SysState)
    (h : ¬(m = 0 ∨ countActive st.active a < m)) :
    RateLimit.enter a m r st =
      (Except.error (PyExc.appInvokeQuotaExceededError a m),
       { st with log := st.log ++ [Event.enter_called a r] }) := by
  unfold RateLimit.enter
  rw [if_neg h]

theorem exit_counters (a r : String) (st : SysState) :
    (RateLimit.exit a r st).counters = st.counters := rfl

theorem exit_log (a r : String) (st : SysState) :
    (RateLimit.exit a r st).log = st.log ++ [Event.exit_called a r] := rfl

theorem exit_active_not_mem (a r : String) (st : SysState) :
    (a, r) ∉ (RateLimit.exit a r st).active := by
  simp [RateLimit.exit, List.mem_filter]

theorem exit_active_mem_iff (a r : String) (st : SysState) (p : String × String)
    (hp : p ≠ (a, r)) :
    p ∈ (RateLimit.exit a r st).active ↔ p ∈ st.active := by
  simp [RateLimit.exit, List.mem_filter, hp]

theorem dispatch_eq (env : Env) (c : StrategyCall) (r : String) (st : SysState) :
    dispatchStrategy env c r st =
      ((env.strategy c).map (fun out => RateLimit.generate out r),
       { st with log := st.log ++ [Event.strategy_invoked c] }) := by
  unfold dispatchStrategy invokeStrategy
  cases env.strategy c <;> rfl

theorem generateBody_eq (env : Env) (app : App) (invoke_from : InvokeFrom)
    (max_active_request : Nat) (request_key : String) (st : SysState) :
    generateBody env app invoke_from max_active_request request_key st =
      match RateLimit.enter app.id max_active_request request_key st with
      | (Except.error e, st1) => (Except.error e, st1)
      | (Except.ok request_id, st1) =>
        match modeOutcome env app invoke_from with
        | Except.error e => (Except.error e, st1)
        | Except.ok call => dispatchStrategy env call request_id st1 := by
  unfold generateBody modeOutcome
  rcases hE : RateLimit.enter app.id max_active_request request_key st with ⟨r, st1⟩
  cases r with
  | error e => rfl
  | ok tok =>
    by_cases h1 : (app.mode == "completion") = true
    · simp [h1]
    · by_cases h2 : (app.mode == "agent-chat" || app.is_agent) = true
      · simp [h1, h2]
      · by_cases h3 : (app.mode == "chat") = true
        · simp [h1, h2, h3]
        · by_cases h4 : (app.mode == "advanced-chat") = true
          · cases hW : get_workflow env invoke_from <;>
              simp [h1, h2, h3, h4, hW, Except.map, dispatch_eq]
          · by_cases h5 : (app.mode == "workflow") = true
            · cases hW : get_workflow env invoke_from <;>
                simp [h1, h2, h3, h4, h5, hW, Except.map, dispatch_eq]
            · simp [h1, h2, h3, h4, h5]

theorem handleExceptions_ok (a r : String) (s : Bool) (resp : Response) (st2 : SysState) :
    handleExceptions a r s (Except.ok resp, st2) =
      if s then (Except.ok resp, st2)
      else (Except.ok resp, RateLimit.exit a r st2) := by
  cases s <;> rfl

theorem handleExceptions_rate (a r : String) (s : Bool) (m : String) (st2 : SysState) :
    handleExceptions a r s (Except.error (PyExc.rateLimitError m), st2) =
      if s then (Except.error (PyExc.invokeRateLimitError m), st2)
      else (Except.error (PyExc.invokeRateLimitError m), RateLimit.exit a r st2) := by
  cases s <;> rfl

theorem handleExceptions_error (a r : String) (s : Bool) (e : PyExc) (st2 : SysState)
    (hne : ∀ m, e ≠ PyExc.rateLimitError m) :
    handleExceptions a r s (Except.error e, st2) =
      if s then (Except.error e, RateLimit.exit a r st2)
      else (Except.error e, RateLimit.exit a r (RateLimit.exit a r st2)) := by
  cases e with
  | rateLimitError m => exact absurd rfl (hne m)
  | invokeRateLimitError m => cases s <;> rfl
  | valueError m => cases s <;> rfl
  | appInvokeQuotaExceededError i c => cases s <;> rfl
  | otherError t => cases s <;> rfl

theorem sysCheck_limited (cfg : Config) (env : Env) (app : App) (st : SysState)
    (h : SandboxLimited cfg env app st) :
    systemRateLimiterCheck cfg env app st =
      (Except.error (PyExc.invokeRateLimitError
        ("Rate limit exceeded, please upgrade your plan or your RPD was "
          ++ toString cfg.APP_DAILY_RATE_LIMIT ++ " requests/day")),
       { st with log := st.log ++ [Event.check_rate_limited app.tenant_id true] }) := by
  obtain ⟨hb, hp, hl⟩ := h
  unfold systemRateLimiterCheck RateLimiter.is_rate_limited
  simp [hb, hp, hl]

theorem sysCheck_increment (cfg : Config) (env : Env) (app : App) (st : SysState)
    (hb : cfg.BILLING_ENABLED = true) (hp : env.plan = "sandbox")
    (hl : ¬ cfg.APP_DAILY_RATE_LIMIT ≤ lookupCounter st.counters app.tenant_id) :
    systemRateLimiterCheck cfg env app st =
      (Except.ok (), { st with
          counters := bumpCounter st.counters app.tenant_id,
          log := st.log ++ [Event.check_rate_limited app.tenant_id false,
                            Event.increment_rate_limit app.tenant_id] }) := by
  unfold systemRateLimiterCheck RateLimiter.is_rate_limited RateLimiter.increment_rate_limit
  simp [hb, hp, hl]

theorem sysCheck_skip (cfg : Config) (env : Env) (app : App) (st : SysState)
    (h : ¬(cfg.BILLING_ENABLED = true ∧ env.plan = "sandbox")) :
    systemRateLimiterCheck cfg env app st = (Except.ok (), st) := by
  unfold systemRateLimiterCheck
  by_cases hb : cfg.BILLING_ENABLED
  · have hp : env.plan ≠ "sandbox" := fun hp => h ⟨hb, hp⟩
    simp [hb, hp]
  · simp [hb]

theorem sysCheck_ok_of_not_limited (cfg : Config) (env : Env) (app : App) (st : SysState)
    (hpre : ¬ SandboxLimited cfg env app st) :
    ∃ st1, systemRateLimiterCheck cfg env app st = (Except.ok (), st1) ∧
      st1.active = st.active ∧
      ∃ t, st1.log = st.log ++ t ∧
        ∀ e ∈ t, (∃ b, e = Event.check_rate_limited app.tenant_id b) ∨
          e = Event.increment_rate_limit app.tenant_id := by
  by_cases hb : cfg.BILLING_ENABLED = true
  · by_cases hp : env.plan = "sandbox"
    · by_cases hl : cfg.APP_DAILY_RATE_LIMIT ≤ lookupCounter st.counters app.tenant_id
      · exact absurd ⟨hb, hp, hl⟩ hpre
      · refine ⟨_, sysCheck_increment cfg env app st hb hp hl, rfl, ?_⟩
        exact ⟨[Event.check_rate_limited app.tenant_id false,
                Event.increment_rate_limit app.tenant_id], rfl, by simp⟩
    · exact ⟨st, sysCheck_skip cfg env app st (fun hc => hp hc.2), rfl, [], by simp⟩
  · exact ⟨st, sysCheck_skip cfg env app st (fun hc => hb hc.1), rfl, [], by simp⟩

theorem generate_of_sysCheck_ok (cfg : Config) (env : Env) (app : App)
    (invoke_from : InvokeFrom) (streaming : Bool) (request_key : String)
    (st st1 : SysState)
    (h : systemRateLimiterCheck cfg env app st = (Except.ok (), st1)) :
    generate cfg env app invoke_from streaming request_key st =
      handleExceptions app.id request_key streaming
        (generateBody env app invoke_from (get_max_active_requests cfg app)
          request_key st1) := by
  unfold generate
  rw [h]

theorem enter_snd_counters (a : String) (m : Nat) (r : String) (st : SysState) :
    ((RateLimit.enter a m r st).2).counters = st.counters := by
  simp only [RateLimit.enter]
  split <;> rfl

theorem enter_snd_log (a : String) (m : Nat) (r : String) (st : SysState) :
    ((RateLimit.enter a m r st).2).log = st.log ++ [Event.enter_called a r] := by
  simp only [RateLimit.enter]
  split <;> rfl

theorem generateBody_counters (env : Env) (app : App) (invoke_from : InvokeFrom)
    (m : Nat) (r : String) (st : SysState) :
    ((generateBody env app invoke_from m r st).2).counters = st.counters := by
  rw [generateBody_eq]
  rcases hE : RateLimit.enter app.id m r st with ⟨res, st1⟩
  have h1 : st1.counters = st.counters := by
    have := enter_snd_counters app.id m r st
    rw [hE] at this
    exact this
  cases res with
  | error e => exact h1
  | ok tok =>
    cases hM : modeOutcome env app invoke_from with
    | error e => exact h1
    | ok c =>
      dsimp only
      rw [dispatch_eq]
      exact h1

theorem generateBody_log_events (env : Env) (app : App) (invoke_from : InvokeFrom)
    (m : Nat) (r : String) (st : SysState) :
    ∀ e ∈ ((generateBody env app invoke_from m r st).2).log,
      e ∈ st.log ∨ e = Event.enter_called app.id r ∨
        ∃ c, modeOutcome env app invoke_from = Except.ok c ∧
          e = Event.strategy_invoked c := by
  rw [generateBody_eq]
  rcases hE : RateLimit.enter app.id m r st with ⟨res, st1⟩
  have h1 : st1.log = st.log ++ [Event.enter_called app.id r] := by
    have := enter_snd_log app.id m r st
    rw [hE] at this
    exact this
  have hmem : ∀ e ∈ st1.log, e ∈ st.log ∨ e = Event.enter_called app.id r := by
    intro e he
    rw [h1] at he
    rcases List.mem_append.mp he with h | h
    · exact Or.inl h
    · exact Or.inr (List.mem_singleton.mp h)
  cases res with
  | error e => exact fun e he => (hmem e he).imp_right Or.inl
  | ok tok =>
    cases hM : modeOutcome env app invoke_from with
    | error e => exact fun e he => (hmem e he).imp_right Or.inl
    | ok c =>
      dsimp only
      rw [dispatch_eq]
      intro e he
      rcases List.mem_append.mp he with h | h
      · exact (hmem e h).imp_right Or.inl
      · exact Or.inr (Or.inr ⟨c, rfl, List.mem_singleton.mp h⟩)

theorem handleExceptions_counters (a r : String) (s : Bool)
    (body : Except PyExc Response × SysState) :
    ((handleExceptions a r s body).2).counters = body.2.counters := by
  unfold handleExceptions
  rcases body with ⟨res, st2⟩
  rcases res with e | resp
  · cases e <;> cases s <;> rfl
  · cases s <;> rfl

theorem handleExceptions_log_events (a r : String) (s : Bool)
    (body : Except PyExc Response × SysState) :
    ∀ e ∈ ((handleExceptions a r s body).2).log,
      e ∈ body.2.log ∨ e = Event.exit_called a r := by
  unfold handleExceptions
  rcases body with ⟨res, st2⟩
  rcases res with e | resp
  · cases e <;> cases s <;> simp [RateLimit.exit] <;> tauto
  · cases s <;> simp [RateLimit.exit] <;> tauto

theorem sysCheck_log_events (cfg : Config) (env : Env) (app : App) (st : SysState) :
    ∀ e ∈ ((systemRateLimiterCheck cfg env app st).2).log,
      e ∈ st.log ∨ (∃ b, e = Event.check_rate_limited app.tenant_id b) ∨
        e = Event.increment_rate_limit app.tenant_id := by
  intro e he
  by_cases hb : cfg.BILLING_ENABLED = true
  · by_cases hp : env.plan = "sandbox"
    · by_cases hl : cfg.APP_DAILY_RATE_LIMIT ≤ lookupCounter st.counters app.tenant_id
      · rw [sysCheck_limited cfg env app st ⟨hb, hp, hl⟩] at he
        rcases List.mem_append.mp he with h | h
        · exact Or.inl h
        · exact Or.inr (Or.inl ⟨true, List.mem_singleton.mp h⟩)
      · rw [sysCheck_increment cfg env app st hb hp hl] at he
        rcases List.mem_append.mp he with h | h
        · exact Or.inl h
        · rcases List.mem_cons.mp h with h2 | h2
          · exact Or.inr (Or.inl ⟨false, h2⟩)
          · exact Or.inr (Or.inr (List.mem_singleton.mp h2))
    · rw [sysCheck_skip cfg env app st (fun hc => hp hc.2)] at he
      exact Or.inl he
  · rw [sysCheck_skip cfg env app st (fun hc => hb hc.1)] at he
    exact Or.inl he

theorem sysCheck_counters_or_bump (cfg : Config) (env : Env) (app : App) (st : SysState) :
    ((systemRateLimiterCheck cfg env app st).2).counters = st.counters ∨
      ((systemRateLimiterCheck cfg env app st).2).counters =
        bumpCounter st.counters app.tenant_id := by
  by_cases hb : cfg.BILLING_ENABLED = true
  · by_cases hp : env.plan = "sandbox"
    · by_cases hl : cfg.APP_DAILY_RATE_LIMIT ≤ lookupCounter st.counters app.tenant_id
      · rw [sysCheck_limited cfg env app st ⟨hb, hp, hl⟩]
        exact Or.inl rfl
      · rw [sysCheck_increment cfg env app st hb hp hl]
        exact Or.inr rfl
    · rw [sysCheck_skip cfg env app st (fun hc => hp hc.2)]
      exact Or.inl rfl
  · rw [sysCheck_skip cfg env app st (fun hc => hb hc.1)]
    exact Or.inl rfl

theorem generate_admitted_eq (cfg : Config) (env : Env) (app : App)
    (invoke_from : InvokeFrom) (streaming : Bool) (request_key : String)
    (st st1 : SysState)
    (hS : systemRateLimiterCheck cfg env app st = (Except.ok (), st1))
    (hadm : get_max_active_requests cfg app = 0 ∨
      countActive st1.active app.id < get_max_active_requests cfg app) :
    generate cfg env app invoke_from streaming request_key st =
      handleExceptions app.id request_key streaming
        (match modeOutcome env app invoke_from with
         | Except.error e =>
           (Except.error e,
            { st1 with active := (app.id, request_key) :: st1.active,
                       log := st1.log ++ [Event.enter_called app.id request_key] })
         | Except.ok c =>
           dispatchStrategy env c request_key
             { st1 with active := (app.id, request_key) :: st1.active,
                        log := st1.log ++ [Event.enter_called app.id request_key] }) := by
  rw [generate_of_sysCheck_ok cfg env app invoke_from streaming request_key st st1 hS,
      generateBody_eq, enter_admit app.id (get_max_active_requests cfg app)
        request_key st1 hadm]

theorem generate_log_events (cfg : Config) (env : Env) (app : App)
    (invoke_from : InvokeFrom) (streaming : Bool) (request_key : String) (st : SysState) :
    ∀ e ∈ ((generate cfg env app invoke_from streaming request_key st).2).log,
      e ∈ st.log ∨ (∃ b, e = Event.check_rate_limited app.tenant_id b)
        ∨ e = Event.increment_rate_limit app.tenant_id
        ∨ e = Event.enter_called app.id request_key
        ∨ e = Event.exit_called app.id request_key
        ∨ ∃ c, modeOutcome env app invoke_from = Except.ok c ∧
            e = Event.strategy_invoked c := by
  unfold generate
  rcases hS : systemRateLimiterCheck cfg env app st with ⟨res1, st1⟩
  have hS1 : ∀ e ∈ st1.log,
      e ∈ st.log ∨ (∃ b, e = Event.check_rate_limited app.tenant_id b) ∨
        e = Event.increment_rate_limit app.tenant_id := by
    have := sysCheck_log_events cfg env app st
    rw [hS] at this
    exact this
  cases res1 with
  | error e => exact fun e he => (hS1 e he).imp_right (fun h => h.imp_right Or.inl)
  | ok u =>
    intro e he
    rcases handleExceptions_log_events app.id request_key streaming _ e he with h | h
    · rcases generateBody_log_events env app invoke_from
          (get_max_active_requests cfg app) request_key st1 e h with h2 | h2 | h2
      · exact (hS1 e h2).imp_right (fun h3 => h3.imp_right Or.inl)
      · exact Or.inr (Or.inr (Or.inr (Or.inl h2)))
      · exact Or.inr (Or.inr (Or.inr (Or.inr (Or.inr h2))))
    · exact Or.inr (Or.inr (Or.inr (Or.inr (Or.inl h))))

theorem handleExceptions_log_extends (a r : String) (s : Bool)
    (body : Except PyExc Response × SysState) :
    ∃ t, ((handleExceptions a r s body).2).log = body.2.log ++ t := by
  unfold handleExceptions
  rcases body with ⟨res, st2⟩
  rcases res with e | resp
  · cases e with
    | rateLimitError m =>
      cases s
      · exact ⟨[Event.exit_called a r], by simp [RateLimit.exit]⟩
      · exact ⟨[], by simp⟩
    | invokeRateLimitError m =>
      cases s
      · exact ⟨[Event.exit_called a r, Event.exit_called a r], by simp [RateLimit.exit]⟩
      · exact ⟨[Event.exit_called a r], by simp [RateLimit.exit]⟩
    | valueError m =>
      cases s
      · exact ⟨[Event.exit_called a r, Event.exit_called a r], by simp [RateLimit.exit]⟩
      · exact ⟨[Event.exit_called a r], by simp [RateLimit.exit]⟩
    | appInvokeQuotaExceededError i c =>
      cases s
      · exact ⟨[Event.exit_called a r, Event.exit_called a r], by simp [RateLimit.exit]⟩
      · exact ⟨[Event.exit_called a r], by simp [RateLimit.exit]⟩
    | otherError tag =>
      cases s
      · exact ⟨[Event.exit_called a r, Event.exit_called a r], by simp [RateLimit.exit]⟩
      · exact ⟨[Event.exit_called a r], by simp [RateLimit.exit]⟩
  · cases s
    · exact ⟨[Event.exit_called a r], by simp [RateLimit.exit]⟩
    · exact ⟨[], by simp⟩

theorem generateBody_log_extends (env : Env) (app : App) (invoke_from : InvokeFrom)
    (m : Nat) (r : String) (st : SysState) :
    ∃ t, ((generateBody env app invoke_from m r st).2).log = st.log ++ t := by
  rw [generateBody_eq]
  rcases hE : RateLimit.enter app.id m r st with ⟨res, st1⟩
  have h1 : st1.log = st.log ++ [Event.enter_called app.id r] := by
    have := enter_snd_log app.id m r st
    rw [hE] at this
    exact this
  cases res with
  | error e => exact ⟨_, h1⟩
  | ok tok =>
    cases modeOutcome env app invoke_from with
    | error e => exact ⟨_, h1⟩
    | ok c =>
      dsimp only
      rw [dispatch_eq]
      exact ⟨[Event.enter_called app.id r, Event.strategy_invoked c], by simp [h1]⟩

theorem handleExceptions_exit_mem (a r : String)
    (body : Except PyExc Response × SysState) :
    Event.exit_called a r ∈ ((handleExceptions a r false body).2).log := by
  unfold handleExceptions
  rcases body with ⟨res, st2⟩
  rcases res with e | resp
  · cases e <;> simp [RateLimit.exit]
  · simp [RateLimit.exit]

/-! Per-claim theorems. -/

/-- Claim C2: for every app, the effective per-application concurrency ceiling computed by
`_get_max_active_requests` equals the minimum of the non-zero values among the app's own
limit and the global configured limit; if both are zero (each zero meaning unlimited), the
result is 0, meaning unlimited. -/
theorem C2_get_max_active_requests_spec (cfg : Config) (app : App) :
    get_max_active_requests cfg app =
      effectiveCeilingSpec (app.max_active_requests.getD 0)
        cfg.APP_MAX_ACTIVE_REQUESTS := by
  unfold get_max_active_requests effectiveCeilingSpec
  rcases Nat.eq_zero_or_pos (app.max_active_requests.getD 0) with hx | hx <;>
    rcases Nat.eq_zero_or_pos cfg.APP_MAX_ACTIVE_REQUESTS with hy | hy
  · simp [hx, hy]
  · simp [hx, hy, Nat.pos_iff_ne_zero.mp hy]
  · simp [hx, hy, Nat.pos_iff_ne_zero.mp hx]
  · simp [hx, hy, Nat.pos_iff_ne_zero.mp hx, Nat.pos_iff_ne_zero.mp hy]

/-- Claim C9: `exit` is idempotent on the active-ticket set: a second `exit` with the same
token changes nothing, an `exit` for a token never admitted changes nothing, and any other
ticket's membership is untouched.  `RateLimit.exit` is a total function, so no call can
raise an error. -/
theorem C9_exit_idempotent (a r : String) (st : SysState) :
    ((RateLimit.exit a r (RateLimit.exit a r st)).active =
        (RateLimit.exit a r st).active)
    ∧ ((a, r) ∉ st.active → (RateLimit.exit a r st).active = st.active)
    ∧ (∀ p, p ≠ (a, r) →
        (p ∈ (RateLimit.exit a r st).active ↔ p ∈ st.active)) := by
  refine ⟨?_, ?_, fun p hp => exit_active_mem_iff a r st p hp⟩
  · simp [RateLimit.exit, List.filter_filter]
  · intro h
    simp only [RateLimit.exit]
    refine List.filter_eq_self.mpr (fun x hx => ?_)
    simp only [bne_iff_ne, ne_eq, decide_eq_true_eq]
    rintro rfl
    exact h hx

/-- Concrete state for the C9 witness: one active ticket for a different token. -/
def stW9 : SysState := ⟨[], [("a", "x")], []⟩

theorem C9_exit_idempotent_witness :
    (RateLimit.exit "a" "r" stW9).active = stW9.active :=
  (C9_exit_idempotent "a" "r" stW9).2.1 (by decide)

/-- Claim C10: `generate_more_like_this` consults neither limiter: the tenant counters and
the active-ticket set are unchanged, no limiter call is logged, and the completion
strategy is invoked directly, its outcome returned as is. -/
theorem C10_more_like_this_frame (env : Env) (app : App) (message_id : String)
    (invoke_from : InvokeFrom) (streaming : Bool) (st : SysState) :
    (generate_more_like_this env app message_id invoke_from streaming st).1 =
        env.strategy (StrategyCall.completion_generate_more_like_this message_id)
    ∧ ((generate_more_like_this env app message_id invoke_from streaming st).2).counters
        = st.counters
    ∧ ((generate_more_like_this env app message_id invoke_from streaming st).2).active
        = st.active
    ∧ ((generate_more_like_this env app message_id invoke_from streaming st).2).log
        = st.log ++ [Event.strategy_invoked
            (StrategyCall.completion_generate_more_like_this message_id)] :=
  ⟨rfl, rfl, rfl, rfl⟩

/-- Claim C4: `generate` applies the tenant rate-limit check only when billing is enabled
and the plan is `sandbox`; a limited tenant is rejected with the `RateLimitExceeded` kind
with the state untouched except for the logged check (so before any increment, ticket
issuance, or strategy invocation); a not-yet-limited tenant's counter is incremented
exactly once, before admission (the check and increment are the first logged events);
without the billing condition no check or increment happens. -/
theorem C4_tenant_rate_limit_policy (cfg : Config) (env : Env) (app : App)
    (invoke_from : InvokeFrom) (streaming : Bool) (request_key : String) (st : SysState) :
    (SandboxLimited cfg env app st →
      generate cfg env app invoke_from streaming request_key st =
        (Except.error (PyExc.invokeRateLimitError
          ("Rate limit exceeded, please upgrade your plan or your RPD was "
            ++ toString cfg.APP_DAILY_RATE_LIMIT ++ " requests/day")),
         { st with log := st.log ++ [Event.check_rate_limited app.tenant_id true] }))
    ∧ (cfg.BILLING_ENABLED = true → env.plan = "sandbox" →
        ¬ cfg.APP_DAILY_RATE_LIMIT ≤ lookupCounter st.counters app.tenant_id →
        ((generate cfg env app invoke_from streaming request_key st).2).counters =
            bumpCounter st.counters app.tenant_id
          ∧ ∃ rest, ((generate cfg env app invoke_from streaming request_key st).2).log =
              st.log ++ [Event.check_rate_limited app.tenant_id false,
                         Event.increment_rate_limit app.tenant_id] ++ rest)
    ∧ (¬(cfg.BILLING_ENABLED = true ∧ env.plan = "sandbox") →
        ((generate cfg env app invoke_from streaming request_key st).2).counters =
            st.counters
          ∧ (∀ t b, Event.check_rate_limited t b ∈
              ((generate cfg env app invoke_from streaming request_key st).2).log →
                Event.check_rate_limited t b ∈ st.log)
          ∧ (∀ t, Event.increment_rate_limit t ∈
              ((generate cfg env app invoke_from streaming request_key st).2).log →
                Event.increment_rate_limit t ∈ st.log)) := by
  refine ⟨?_, ?_, ?_⟩
  · intro h
    unfold generate
    rw [sysCheck_limited cfg env app st h]
  · intro hb hp hl
    have hS := sysCheck_increment cfg env app st hb hp hl
    rw [generate_of_sysCheck_ok cfg env app invoke_from streaming request_key st _ hS]
    constructor
    · rw [handleExceptions_counters, generateBody_counters]
    · obtain ⟨t2, h2⟩ := handleExceptions_log_extends app.id request_key streaming
        (generateBody env app invoke_from (get_max_active_requests cfg app) request_key _)
      obtain ⟨t1, h3⟩ := generateBody_log_extends env app invoke_from
        (get_max_active_requests cfg app) request_key
        { st with counters := bumpCounter st.counters app.tenant_id,
                  log := st.log ++ [Event.check_rate_limited app.tenant_id false,
                                    Event.increment_rate_limit app.tenant_id] }
      refine ⟨t1 ++ t2, ?_⟩
      rw [h2, h3]
      simp
  · intro h
    have hS := sysCheck_skip cfg env app st h
    rw [generate_of_sysCheck_ok cfg env app invoke_from streaming request_key st _ hS]
    refine ⟨?_, ?_, ?_⟩
    · rw [handleExceptions_counters, generateBody_counters]
    · intro t b hmem
      rcases handleExceptions_log_events app.id request_key streaming _ _ hmem with h2 | h2
      · rcases generateBody_log_events env app invoke_from
            (get_max_active_requests cfg app) request_key st _ h2 with h3 | h3 | h3
        · exact h3
        · exact Event.noConfusion h3
        · rcases h3 with ⟨c, _, h4⟩
          exact Event.noConfusion h4
      · exact Event.noConfusion h2
    · intro t hmem
      rcases handleExceptions_log_events app.id request_key streaming _ _ hmem with h2 | h2
      · rcases generateBody_log_events env app invoke_from
            (get_max_active_requests cfg app) request_key st _ h2 with h3 | h3 | h3
        · exact h3
        · exact Event.noConfusion h3
        · rcases h3 with ⟨c, _, h4⟩
          exact Event.noConfusion h4
      · exact Event.noConfusion h2

/-- Billing enabled with a daily ceiling of 3; used by the C4 witness. -/
def cfgB : Config := ⟨true, 3, 0⟩

/-- A sandbox-plan tenant environment; used by the C4 witness. -/
def envS : Env := ⟨"sandbox", none, none, fun _ => Except.ok GenOut.mapping⟩

/-- A chat-mode app; used by several witnesses. -/
def appW : App := ⟨"a1", "t1", "chat", false, none⟩

/-- Tenant `t1` already at its daily quota of 3; used by the C4 witness. -/
def stL : SysState := ⟨[("t1", 3)], [], []⟩

theorem C4_tenant_rate_limit_policy_witness :
    generate cfgB envS appW InvokeFrom.web_app true "r1" stL =
      (Except.error (PyExc.invokeRateLimitError
        ("Rate limit exceeded, please upgrade your plan or your RPD was "
          ++ toString cfgB.APP_DAILY_RATE_LIMIT ++ " requests/day")),
       { stL with log := stL.log ++ [Event.check_rate_limited appW.tenant_id true] }) :=
  (C4_tenant_rate_limit_policy cfgB envS appW InvokeFrom.web_app true "r1" stL).1
    ⟨rfl, rfl, by decide⟩

/-- Billing disabled; used by several witnesses. -/
def cfgW : Config := ⟨false, 100, 0⟩

/-- A non-sandbox environment whose strategies succeed; used by several witnesses. -/
def envW : Env := ⟨"pro", none, none, fun _ => Except.ok GenOut.mapping⟩

/-- The empty shared state. -/
def stE : SysState := ⟨[], [], []⟩

/-- Claim C7: for every non-streaming call of `generate` that reaches the wrapped call
(the tenant limiter did not short-circuit first — before admission no request token
exists), `rate_limit.exit` is invoked on the request token, whatever the outcome: the
`finally` clause logs an exit on every path. -/
theorem C7_non_streaming_eager_release (cfg : Config) (env : Env) (app : App)
    (invoke_from : InvokeFrom) (request_key : String) (st : SysState)
    (hpre : ¬ SandboxLimited cfg env app st) :
    Event.exit_called app.id request_key ∈
      ((generate cfg env app invoke_from false request_key st).2).log := by
  obtain ⟨st1, hS, _, _⟩ := sysCheck_ok_of_not_limited cfg env app st hpre
  rw [generate_of_sysCheck_ok cfg env app invoke_from false request_key st st1 hS]
  exact handleExceptions_exit_mem app.id request_key _

theorem C7_non_streaming_eager_release_witness :
    Event.exit_called appW.id "r1" ∈
      ((generate cfgW envW appW InvokeFrom.web_app false "r1" stE).2).log :=
  C7_non_streaming_eager_release cfgW envW appW InvokeFrom.web_app "r1" stE
    (fun h => absurd h.1 (by decide))

/-- Claim C8: when the app's mode is outside the supported closed set (and the app is not
an agent app), `generate` fails with `ValueError` carrying the offending mode value, and
no generation strategy is invoked. -/
theorem C8_unsupported_mode (cfg : Config) (env : Env) (app : App)
    (invoke_from : InvokeFrom) (streaming : Bool) (request_key : String) (st : SysState)
    (hpre : ¬ SandboxLimited cfg env app st)
    (hadm : Admits cfg app st)
    (h1 : app.mode ≠ "completion") (h2 : app.mode ≠ "agent-chat")
    (hagent : app.is_agent = false) (h3 : app.mode ≠ "chat")
    (h4 : app.mode ≠ "advanced-chat") (h5 : app.mode ≠ "workflow") :
    (generate cfg env app invoke_from streaming request_key st).1 =
        Except.error (PyExc.valueError ("Invalid app mode " ++ app.mode))
    ∧ ∀ c, Event.strategy_invoked c ∈
        ((generate cfg env app invoke_from streaming request_key st).2).log →
          Event.strategy_invoked c ∈ st.log := by
  have hmode : modeOutcome env app invoke_from =
      Except.error (PyExc.valueError ("Invalid app mode " ++ app.mode)) := by
    unfold modeOutcome
    simp [h1, h2, h3, h4, h5, hagent]
  refine ⟨?_, ?_⟩
  · obtain ⟨st1, hS, hact, _⟩ := sysCheck_ok_of_not_limited cfg env app st hpre
    have hadm1 : get_max_active_requests cfg app = 0 ∨
        countActive st1.active app.id < get_max_active_requests cfg app := by
      rw [hact]
      exact hadm
    rw [generate_admitted_eq cfg env app invoke_from streaming request_key st st1
        hS hadm1, hmode]
    dsimp only
    rw [handleExceptions_error _ _ _ _ _ (fun m h => PyExc.noConfusion h)]
    cases streaming <;> rfl
  · intro c hc
    rcases generate_log_events cfg env app invoke_from streaming request_key st _ hc with
      h | h | h | h | h | h
    · exact h
    · rcases h with ⟨b, hb⟩
      exact Event.noConfusion hb
    · exact Event.noConfusion h
    · exact Event.noConfusion h
    · exact Event.noConfusion h
    · rcases h with ⟨c0, hc0, _⟩
      rw [hmode] at hc0
      exact Except.noConfusion hc0

/-- An app whose mode string is outside the supported set; used by the C8 witness. -/
def appBad : App := ⟨"a1", "t1", "karaoke", false, none⟩

theorem C8_unsupported_mode_witness :
    (generate cfgW envW appBad InvokeFrom.web_app true "r1" stE).1 =
      Except.error (PyExc.valueError ("Invalid app mode " ++ appBad.mode)) :=
  (C8_unsupported_mode cfgW envW appBad InvokeFrom.web_app true "r1" stE
    (fun h => absurd h.1 (by decide)) (Or.inl (by decide))
    (by decide) (by decide) rfl (by decide) (by decide) (by decide)).1

/-- Claim C5: for an admitted request, an exception raised synchronously by the selected
strategy that is not the provider throttling error (`RateLimitError`) is caught at the
wrapper boundary, the admission ticket is released (an exit is logged, the ticket leaves
the active set, every other ticket is untouched), and the same exception value propagates
unchanged — it is never swallowed. -/
theorem C5_unexpected_exception_released_and_reraised (cfg : Config) (env : Env)
    (app : App) (invoke_from : InvokeFrom) (streaming : Bool) (request_key : String)
    (st : SysState) (c : StrategyCall) (e : PyExc)
    (hpre : ¬ SandboxLimited cfg env app st)
    (hadm : Admits cfg app st)
    (hc : modeOutcome env app invoke_from = Except.ok c)
    (hs : env.strategy c = Except.error e)
    (hne : ∀ m, e ≠ PyExc.rateLimitError m) :
    (generate cfg env app invoke_from streaming request_key st).1 = Except.error e
    ∧ (app.id, request_key) ∉
        ((generate cfg env app invoke_from streaming request_key st).2).active
    ∧ (∀ p, p ≠ (app.id, request_key) →
        (p ∈ ((generate cfg env app invoke_from streaming request_key st).2).active ↔
          p ∈ st.active))
    ∧ Event.exit_called app.id request_key ∈
        ((generate cfg env app invoke_from streaming request_key st).2).log := by
  obtain ⟨st1, hS, hact, _⟩ := sysCheck_ok_of_not_limited cfg env app st hpre
  have hadm1 : get_max_active_requests cfg app = 0 ∨
      countActive st1.active app.id < get_max_active_requests cfg app := by
    rw [hact]
    exact hadm
  rw [generate_admitted_eq cfg env app invoke_from streaming request_key st st1 hS hadm1,
      hc]
  dsimp only
  rw [dispatch_eq, hs]
  simp only [Except.map]
  rw [handleExceptions_error _ _ _ _ _ hne]
  cases streaming
  · rw [if_neg Bool.false_ne_true]
    refine ⟨rfl, exit_active_not_mem _ _ _, ?_, ?_⟩
    · intro p hp
      rw [exit_active_mem_iff _ _ _ p hp, exit_active_mem_iff _ _ _ p hp]
      simp [List.mem_cons, hact, hp]
    · simp [RateLimit.exit]
  · rw [if_pos rfl]
    refine ⟨rfl, exit_active_not_mem _ _ _, ?_, ?_⟩
    · intro p hp
      rw [exit_active_mem_iff _ _ _ p hp]
      simp [List.mem_cons, hact, hp]
    · simp [RateLimit.exit]

/-- An environment whose strategies raise an unexpected error; used by the C5 witness. -/
def envErr : Env := ⟨"pro", none, none, fun _ => Except.error (PyExc.otherError "boom")⟩

theorem C5_unexpected_exception_witness :
    (generate cfgW envErr appW InvokeFrom.web_app true "r1" stE).1 =
      Except.error (PyExc.otherError "boom") :=
  (C5_unexpected_exception_released_and_reraised cfgW envErr appW InvokeFrom.web_app
    true "r1" stE StrategyCall.chat_generate (PyExc.otherError "boom")
    (fun h => absurd h.1 (by decide)) (Or.inl rfl) rfl rfl
    (fun m h => PyExc.noConfusion h)).1

/-- Claim C6: for the `advanced-chat` and `workflow` modes, `generate` resolves the
published workflow for a normal invocation source and the draft workflow for a debugger
source — any strategy invoked with a workflow received exactly the resolved one — and it
fails with `ValueError("Workflow not published")` when the published definition is absent
for a normal invocation, and with `ValueError("Workflow not initialized")` when the draft
definition is absent for a debugger invocation. -/
theorem C6_workflow_resolution (cfg : Config) (env : Env) (app : App)
    (invoke_from : InvokeFrom) (streaming : Bool) (request_key : String) (st : SysState)
    (hpre : ¬ SandboxLimited cfg env app st)
    (hadm : Admits cfg app st)
    (hmode : app.mode = "advanced-chat" ∨ app.mode = "workflow")
    (hagent : app.is_agent = false) :
    (invoke_from ≠ InvokeFrom.debugger → env.published_workflow = none →
      (generate cfg env app invoke_from streaming request_key st).1 =
        Except.error (PyExc.valueError "Workflow not published"))
    ∧ (invoke_from = InvokeFrom.debugger → env.draft_workflow = none →
      (generate cfg env app invoke_from streaming request_key st).1 =
        Except.error (PyExc.valueError "Workflow not initialized"))
    ∧ (∀ c w, Event.strategy_invoked c ∈
        ((generate cfg env app invoke_from streaming request_key st).2).log →
          Event.strategy_invoked c ∉ st.log → strategyWorkflow c = some w →
            get_workflow env invoke_from = Except.ok w) := by
  have hmoex : ∃ ctor : Workflow → StrategyCall,
      modeOutcome env app invoke_from = (get_workflow env invoke_from).map ctor ∧
      ∀ w0, strategyWorkflow (ctor w0) = some w0 := by
    rcases hmode with hm | hm
    · exact ⟨StrategyCall.advanced_chat_generate,
        by unfold modeOutcome; simp [hm, hagent], fun w0 => rfl⟩
    · exact ⟨StrategyCall.workflow_generate,
        by unfold modeOutcome; simp [hm, hagent], fun w0 => rfl⟩
  obtain ⟨ctor, hmo, hctor⟩ := hmoex
  have key : ∀ msg, modeOutcome env app invoke_from =
      Except.error (PyExc.valueError msg) →
      (generate cfg env app invoke_from streaming request_key st).1 =
        Except.error (PyExc.valueError msg) := by
    intro msg hmo2
    obtain ⟨st1, hS, hact, _⟩ := sysCheck_ok_of_not_limited cfg env app st hpre
    have hadm1 : get_max_active_requests cfg app = 0 ∨
        countActive st1.active app.id < get_max_active_requests cfg app := by
      rw [hact]
      exact hadm
    rw [generate_admitted_eq cfg env app invoke_from streaming request_key st st1
        hS hadm1, hmo2]
    dsimp only
    rw [handleExceptions_error _ _ _ _ _ (fun m h => PyExc.noConfusion h)]
    cases streaming <;> rfl
  refine ⟨?_, ?_, ?_⟩
  · intro hif hnone
    refine key _ ?_
    rw [hmo]
    unfold get_workflow
    rw [if_neg hif, hnone]
    rfl
  · intro hif hnone
    refine key _ ?_
    rw [hmo]
    unfold get_workflow
    rw [if_pos hif, hnone]
    rfl
  · intro c w hclog hnew hw
    rcases generate_log_events cfg env app invoke_from streaming request_key st _ hclog
      with h | h | h | h | h | h
    · exact absurd h hnew
    · rcases h with ⟨b, hb⟩
      exact Event.noConfusion hb
    · exact Event.noConfusion h
    · exact Event.noConfusion h
    · exact Event.noConfusion h
    · rcases h with ⟨c0, hc0, heq⟩
      have hcc : c = c0 := by
        injection heq
      rw [hmo] at hc0
      cases hgw : get_workflow env invoke_from with
      | error e0 =>
        rw [hgw] at hc0
        simp [Except.map] at hc0
      | ok w0 =>
        rw [hgw] at hc0
        simp only [Except.map] at hc0
        have hc1 : ctor w0 = c0 := by
          injection hc0
        have hw0 : strategyWorkflow c = some w0 := by
          rw [hcc, ← hc1]
          exact hctor w0
        rw [hw0] at hw
        exact congrArg Except.ok (Option.some.inj hw)

/-- A workflow-mode app; used by the C6 witness. -/
def appWf : App := ⟨"a1", "t1", "workflow", false, none⟩

/-- An environment holding a draft workflow but no published one; used by the C6
witness. -/
def envNoPub : Env := ⟨"pro", some ⟨"wd"⟩, none, fun _ => Except.ok GenOut.mapping⟩

theorem C6_workflow_resolution_witness :
    (generate cfgW envNoPub appWf InvokeFrom.web_app true "r1" stE).1 =
      Except.error (PyExc.valueError "Workflow not published") :=
  (C6_workflow_resolution cfgW envNoPub appWf InvokeFrom.web_app true "r1" stE
    (fun h => absurd h.1 (by decide)) (Or.inl rfl) (Or.inr rfl) rfl).1
    (fun h => InvokeFrom.noConfusion h) rfl

/-- An environment whose strategies raise the provider throttling error; used by the C1
theorem. -/
def envRL : Env := ⟨"pro", none, none,
  fun _ => Except.error (PyExc.rateLimitError "provider throttled")⟩

/-- Claim C1 (code evidence): when the strategy raises the provider throttling error
during the synchronous call, `generate` translates it into the uniform
`InvokeRateLimitError` kind, but for a streaming request the first `except` clause
re-raises without calling `rate_limit.exit` and the `finally` clause does not fire either:
the admitted ticket stays in the active set and no exit is ever logged.  Only the
non-streaming call releases the ticket (through the `finally` clause). -/
theorem C1_streaming_rate_limit_ticket_leak :
    ((generate cfgW envRL appW InvokeFrom.web_app true "r1" stE).1 =
        Except.error (PyExc.invokeRateLimitError "provider throttled"))
    ∧ ("a1", "r1") ∈
        ((generate cfgW envRL appW InvokeFrom.web_app true "r1" stE).2).active
    ∧ (∀ a t, Event.exit_called a t ∉
        ((generate cfgW envRL appW InvokeFrom.web_app true "r1" stE).2).log)
    ∧ ((generate cfgW envRL appW InvokeFrom.web_app false "r1" stE).1 =
        Except.error (PyExc.invokeRateLimitError "provider throttled"))
    ∧ ("a1", "r1") ∉
        ((generate cfgW envRL appW InvokeFrom.web_app false "r1" stE).2).active := by
  have hlog : ((generate cfgW envRL appW InvokeFrom.web_app true "r1" stE).2).log =
      [Event.enter_called "a1" "r1",
       Event.strategy_invoked StrategyCall.chat_generate] := rfl
  refine ⟨rfl, by decide, ?_, rfl, by decide⟩
  intro a t
  rw [hlog]
  simp

/-- An advanced-chat app; used by the C3 theorems. -/
def appAdv : App := ⟨"a1", "t1", "advanced-chat", false, none⟩

/-- A sandbox-plan environment holding draft and published workflows; used by the C3
theorems. -/
def envDraft : Env := ⟨"sandbox", some ⟨"wd"⟩, some ⟨"wp"⟩,
  fun _ => Except.ok GenOut.stream⟩

/-- Claim C3 (counterexample): with billing enabled, a sandbox plan, and the tenant
already at its daily quota, `generate` rejects the request, yet
`generate_single_iteration` on the same state performs no tenant rate-limit check and
issues no concurrency ticket (no check, enter, or exit is logged; counters and active set
are untouched) and still invokes the strategy; `generate_single_loop` likewise leaves the
shared state untouched.  The debug entry points are therefore not subject to the same
admission rules as `generate`. -/
theorem C3_counterexample :
    ((generate cfgB envDraft appAdv InvokeFrom.debugger true "r1" stL).1 =
        Except.error (PyExc.invokeRateLimitError
          ("Rate limit exceeded, please upgrade your plan or your RPD was "
            ++ toString cfgB.APP_DAILY_RATE_LIMIT ++ " requests/day")))
    ∧ ((generate_single_iteration envDraft appAdv "n1" true stL).2 =
        { stL with log := stL.log ++
            [Event.strategy_invoked
              (StrategyCall.advanced_chat_single_iteration_generate ⟨"wd"⟩ "n1")] })
    ∧ (∀ b, Event.check_rate_limited "t1" b ∉
        ((generate_single_iteration envDraft appAdv "n1" true stL).2).log)
    ∧ (∀ tok, Event.enter_called "a1" tok ∉
        ((generate_single_iteration envDraft appAdv "n1" true stL).2).log)
    ∧ ((generate_single_loop envDraft appAdv "n1" true stL).2).counters = stL.counters
    ∧ ((generate_single_loop envDraft appAdv "n1" true stL).2).active = stL.active := by
  have hlog : ((generate_single_iteration envDraft appAdv "n1" true stL).2).log =
      [Event.strategy_invoked
        (StrategyCall.advanced_chat_single_iteration_generate ⟨"wd"⟩ "n1")] := rfl
  refine ⟨rfl, rfl, ?_, ?_, rfl, rfl⟩
  · intro b
    rw [hlog]
    simp
  · intro tok
    rw [hlog]
    simp

/-- Claim C3 (amended): the debug-oriented entry points bypass the admission rules of
`generate` entirely: `generate_single_iteration` and `generate_single_loop` leave the
tenant counters and the active-ticket set unchanged and log no limiter call — every new
log entry is a strategy invocation. -/
theorem C3_amended_debug_entry_points_bypass_admission (env : Env) (app : App)
    (node_id : String) (streaming : Bool) (st : SysState) :
    (((generate_single_iteration env app node_id streaming st).2).counters = st.counters
      ∧ ((generate_single_iteration env app node_id streaming st).2).active = st.active
      ∧ ∀ e ∈ ((generate_single_iteration env app node_id streaming st).2).log,
          e ∈ st.log ∨ ∃ c, e = Event.strategy_invoked c)
    ∧ (((generate_single_loop env app node_id streaming st).2).counters = st.counters
      ∧ ((generate_single_loop env app node_id streaming st).2).active = st.active
      ∧ ∀ e ∈ ((generate_single_loop env app node_id streaming st).2).log,
          e ∈ st.log ∨ ∃ c, e = Event.strategy_invoked c) := by
  constructor
  · unfold generate_single_iteration
    by_cases h1 : (app.mode == "advanced-chat") = true
    · rw [if_pos h1]
      cases hW : get_workflow env InvokeFrom.debugger with
      | error e0 => exact ⟨rfl, rfl, fun e he => Or.inl he⟩
      | ok w =>
        refine ⟨rfl, rfl, fun e he => ?_⟩
        rcases List.mem_append.mp he with h | h
        · exact Or.inl h
        · exact Or.inr ⟨_, List.mem_singleton.mp h⟩
    · rw [if_neg h1]
      by_cases h2 : (app.mode == "workflow") = true
      · rw [if_pos h2]
        cases hW : get_workflow env InvokeFrom.debugger with
        | error e0 => exact ⟨rfl, rfl, fun e he => Or.inl he⟩
        | ok w =>
          refine ⟨rfl, rfl, fun e he => ?_⟩
          rcases List.mem_append.mp he with h | h
          · exact Or.inl h
          · exact Or.inr ⟨_, List.mem_singleton.mp h⟩
      · rw [if_neg h2]
        exact ⟨rfl, rfl, fun e he => Or.inl he⟩
  · unfold generate_single_loop
    by_cases h1 : (app.mode == "advanced-chat") = true
    · rw [if_pos h1]
      cases hW : get_workflow env InvokeFrom.debugger with
      | error e0 => exact ⟨rfl, rfl, fun e he => Or.inl he⟩
      | ok w =>
        refine ⟨rfl, rfl, fun e he => ?_⟩
        rcases List.mem_append.mp he with h | h
        · exact Or.inl h
        · exact Or.inr ⟨_, List.mem_singleton.mp h⟩
    · rw [if_neg h1]
      by_cases h2 : (app.mode == "workflow") = true
      · rw [if_pos h2]
        cases hW : get_workflow env InvokeFrom.debugger with
        | error e0 => exact ⟨rfl, rfl, fun e he => Or.inl he⟩
        | ok w =>
          refine ⟨rfl, rfl, fun e he => ?_⟩
          rcases List.mem_append.mp he with h | h
          · exact Or.inl h
          · exact Or.inr ⟨_, List.mem_singleton.mp h⟩
      · rw [if_neg h2]
        exact ⟨rfl, rfl, fun e he => Or.inl he⟩

theorem C3_amended_witness :
    Event.strategy_invoked
        (StrategyCall.advanced_chat_single_iteration_generate ⟨"wd"⟩ "n1") ∈ stL.log
      ∨ ∃ c, Event.strategy_invoked
          (StrategyCall.advanced_chat_single_iteration_generate ⟨"wd"⟩ "n1") =
            Event.strategy_invoked c :=
  (C3_amended_debug_entry_points_bypass_admission envDraft appAdv "n1" true stL).1.2.2
    _ (by decide)

end AppGen
